import Mathlib

/-!
Verification of the request-handling flow of the `google-imagen-image-generation`
Lambda (`main.go`): a shallow embedding of the handler, its error helpers and the
per-image upload loop, with the external generation API, the S3 client and the
wall clock modelled as an oracle (`World`).  The handler's observable behaviour is
its `APIGatewayProxyResponse`, the Go `error` it returns, and the ordered trace of
external calls it performs.
-/

namespace Imagen

/-- Go struct `requestPayload` (main.go:71-76).  A field absent from the JSON body
decodes to its Go zero value: `0` for `numberOfImages`, `""` for the string
fields.  `NumberOfImages` is an `int32`; its arithmetic here never overflows, so
it is modelled as `Int`. -/
structure requestPayload where
  numberOfImages : Int
  aspectRatio : String
  personGeneration : String
  prompt : String
  deriving Repr, DecidableEq

/-- The genai `GenerateImagesConfig` as populated by the handler (main.go:99-105):
`PersonGeneration` is set only when the request field is non-empty, modelled as
`Option`. -/
structure GenerateImagesConfig where
  numberOfImages : Int
  aspectRatio : String
  personGeneration : Option String
  deriving Repr, DecidableEq

/-- One generated image: the handler only reads `img.Image.ImageBytes`
(main.go:128), modelled as a byte list. -/
structure GeneratedImage where
  imageBytes : List Nat
  deriving Repr, DecidableEq

/-- `events.APIGatewayProxyResponse` restricted to the fields the handler sets:
status code, headers, body (main.go:143-147, 150-164). -/
structure APIGatewayProxyResponse where
  statusCode : Nat
  headers : List (String × String)
  body : String
  deriving Repr, DecidableEq

/-- A wall-clock reading, as consumed by `time.Now().Format("20060102T150405")`
(main.go:123). -/
structure DateTime where
  year : Nat
  month : Nat
  day : Nat
  hour : Nat
  minute : Nat
  second : Nat
  deriving Repr, DecidableEq

/-- Decimal rendering of `n` zero-padded to width 2, as Go's `time` layout `01`,
`02`, `15`, `04`, `05` fields print (two digits for all in-range values). -/
def pad2 (n : Nat) : String :=
  if n < 100 then
    String.mk [Nat.digitChar (n / 10), Nat.digitChar (n % 10)]
  else Nat.repr n

/-- Decimal rendering of `n` zero-padded to width 4, as Go's `time` layout `2006`
year field prints. -/
def pad4 (n : Nat) : String :=
  if n < 10000 then
    String.mk [Nat.digitChar (n / 1000), Nat.digitChar (n / 100 % 10),
               Nat.digitChar (n / 10 % 10), Nat.digitChar (n % 10)]
  else Nat.repr n

/-- Go's `t.Format("20060102T150405")` (main.go:123): year, month, day, a literal
`T`, hour, minute, second. -/
def formatTimestamp (t : DateTime) : String :=
  pad4 t.year ++ pad2 t.month ++ pad2 t.day ++ "T" ++
    pad2 t.hour ++ pad2 t.minute ++ pad2 t.second

/-- Go's `path.Join(a, b)` (main.go:121) on two components: empty components are
dropped and the rest joined with `/`.  (`path.Join` also runs `path.Clean`; the
components built here - an environment prefix and `imagen_<idx>_<ts>.png` - are
already clean, on which `Clean` is the identity.) -/
def pathJoin (a b : String) : String :=
  if a = "" then b else if b = "" then a else a ++ "/" ++ b

/-- Process configuration read from the environment at startup (main.go:22-52):
`OUTPUT_BUCKET`, optional `OUTPUT_FOLDER`, `OUTPUT_BUCKET_REGION` (already
defaulted to `us-east-1` when unset). -/
structure Config where
  bucketName : String
  folderPrefix : String
  region : String
  deriving Repr, DecidableEq

/-- One external call made by the handler: the single
`genaiClient.Models.GenerateImages` invocation (main.go:107-112) or one
`s3Client.PutObject` attempt (main.go:125-130). -/
inductive Event where
  | genCall (model : String) (prompt : String) (cfg : GenerateImagesConfig)
  | putObject (bucket : String) (key : String) (body : List Nat) (contentType : String)
  deriving Repr, DecidableEq

/-- The environment a single handler invocation runs against:
`generateImages` is the external API's answer to the one generation call;
`putObject n` is the S3 outcome of the `n`-th upload attempt of this request;
`now n` is the wall clock at the `n`-th loop iteration (`time.Now()` is re-read
each iteration). -/
structure World where
  generateImages : String → GenerateImagesConfig → Except String (List GeneratedImage)
  putObject : Nat → Except String Unit
  now : Nat → DateTime

/-- What one handler invocation returns and does: the response and Go error
(the pair returned at main.go:143-147/150-164), the URL list serialized into a
200 body (`none` on the plain-text error responses, which carry no URL list),
and the ordered trace of external calls. -/
structure HandlerResult where
  resp : APIGatewayProxyResponse
  goError : Option String
  imageUrls : Option (List String)
  events : List Event
  deriving Repr, DecidableEq

/-- Go helper `clientError` (main.go:150-156): plain-text response with the given
status, paired with a `nil` Go error. -/
def clientError (status : Nat) (msg : String) : APIGatewayProxyResponse × Option String :=
  ({ statusCode := status, headers := [("Content-Type", "text/plain")], body := msg }, none)

/-- Go helper `serverError` (main.go:158-164): plain-text 500 response paired
with a `nil` Go error. -/
def serverError (msg : String) : APIGatewayProxyResponse × Option String :=
  ({ statusCode := 500, headers := [("Content-Type", "text/plain")], body := msg }, none)

/-- The `GenerateImagesConfig` the handler builds after validation
(main.go:91-105): `NumberOfImages <= 0` coerced to 1, empty `AspectRatio`
defaulted to `"SQUARE"`, `PersonGeneration` set only when non-empty. -/
def genConfigOf (inp : requestPayload) : GenerateImagesConfig :=
  { numberOfImages := if inp.numberOfImages ≤ 0 then 1 else inp.numberOfImages
    aspectRatio := if inp.aspectRatio = "" then "SQUARE" else inp.aspectRatio
    personGeneration :=
      if inp.personGeneration = "" then none else some inp.personGeneration }

/-- The S3 key for the image at zero-based `idx` (main.go:121-124):
`path.Join(folderPrefix, fmt.Sprintf("imagen_%d_%s.png", idx, time.Now().Format("20060102T150405")))`. -/
def keyFor (cfg : Config) (w : World) (idx : Nat) : String :=
  pathJoin cfg.folderPrefix
    ("imagen_" ++ toString idx ++ "_" ++ formatTimestamp (w.now idx) ++ ".png")

/-- The public URL for the image at `idx` (main.go:137):
`fmt.Sprintf("https://%s.s3.%s.amazonaws.com/%s", bucketName, region, key)`. -/
def urlFor (cfg : Config) (w : World) (idx : Nat) : String :=
  "https://" ++ cfg.bucketName ++ ".s3." ++ cfg.region ++ ".amazonaws.com/" ++
    keyFor cfg w idx

/-- Outcome of the upload loop (main.go:119-139): the accumulated URLs on
success, or the `serverError` message on the first failed upload; in both cases
the trace of `PutObject` attempts, in order. -/
inductive LoopOut where
  | ok (urls : List String) (events : List Event)
  | fail (msg : String) (events : List Event)
  deriving Repr, DecidableEq

/-- The trace of a `LoopOut`. -/
def LoopOut.events : LoopOut → List Event
  | .ok _ evs => evs
  | .fail _ evs => evs

/-- The upload loop (main.go:119-139): for each image in order, build the key,
attempt `PutObject`; on error return the `serverError` message at once (no
further attempts); on success append the public URL and continue.  `idx` is the
zero-based loop index, which also numbers the upload attempts in `World`. -/
def uploadLoop (cfg : Config) (w : World) : List GeneratedImage → Nat → LoopOut
  | [], _ => .ok [] []
  | img :: rest, idx =>
    let ev := Event.putObject cfg.bucketName (keyFor cfg w idx) img.imageBytes "image/png"
    match w.putObject idx with
    | .error e => .fail ("failed to upload image: " ++ e) [ev]
    | .ok _ =>
      match uploadLoop cfg w rest (idx + 1) with
      | .ok urls evs => .ok (urlFor cfg w idx :: urls) (ev :: evs)
      | .fail msg evs => .fail msg (ev :: evs)

/-- Go's `json.Marshal(responsePayload{ImageURLs: urls})` (main.go:78-80, 142):
the handler's `urls` slice is `nil` exactly when no image was uploaded, and Go
marshals a nil slice as JSON `null`, otherwise as an array.  Escaping inside the
strings is omitted: the URLs produced here contain no character Go's encoder
escapes. -/
def marshalResponse (urls : List String) : String :=
  match urls with
  | [] => "\x7b\"imageUrls\":null\x7d"
  | _ =>
    "\x7b\"imageUrls\":[" ++
      String.intercalate "," (urls.map (fun u => "\"" ++ u ++ "\"")) ++ "]\x7d"

/-- The Lambda handler (main.go:82-148).  JSON decoding of the raw body is
external to this model: the handler receives `json.Unmarshal`'s outcome, either
the decoded `requestPayload` or the decode error. -/
def handler (cfg : Config) (w : World) (body : Except String requestPayload) :
    HandlerResult :=
  match body with
  | .error e =>
    let r := clientError 400 ("invalid JSON: " ++ e)
    { resp := r.1, goError := r.2, imageUrls := none, events := [] }
  | .ok inp =>
    if inp.prompt = "" then
      let r := clientError 400 "prompt is required"
      { resp := r.1, goError := r.2, imageUrls := none, events := [] }
    else
      let genCfg := genConfigOf inp
      let genEv := Event.genCall "imagen-4.0-generate-preview-06-06" inp.prompt genCfg
      match w.generateImages inp.prompt genCfg with
      | .error e =>
        let r := serverError ("image generation failed: " ++ e)
        { resp := r.1, goError := r.2, imageUrls := none, events := [genEv] }
      | .ok imgs =>
        match uploadLoop cfg w imgs 0 with
        | .ok urls evs =>
          { resp := { statusCode := 200
                      headers := [("Content-Type", "application/json")]
                      body := marshalResponse urls }
            goError := none, imageUrls := some urls, events := genEv :: evs }
        | .fail msg evs =>
          let r := serverError msg
          { resp := r.1, goError := r.2, imageUrls := none, events := genEv :: evs }

/-- The URL list the loop accumulates when every upload succeeds, starting at
loop index `idx`. -/
def okUrls (cfg : Config) (w : World) : List GeneratedImage → Nat → List String
  | [], _ => []
  | _ :: rest, idx => urlFor cfg w idx :: okUrls cfg w rest (idx + 1)

/-- The `PutObject` attempts the loop makes over `imgs`, starting at loop index
`idx`. -/
def putEvents (cfg : Config) (w : World) : List GeneratedImage → Nat → List Event
  | [], _ => []
  | img :: rest, idx =>
    Event.putObject cfg.bucketName (keyFor cfg w idx) img.imageBytes "image/png"
      :: putEvents cfg w rest (idx + 1)

/-- The (key, bytes) pairs the loop writes for `imgs` starting at `idx`. -/
def putPairs (cfg : Config) (w : World) : List GeneratedImage → Nat → List (String × List Nat)
  | [], _ => []
  | img :: rest, idx =>
    (keyFor cfg w idx, img.imageBytes) :: putPairs cfg w rest (idx + 1)

/-- The object-store contents produced by a trace: each `PutObject` attempt, in
order, commits its (key, bytes) pair exactly when the store accepted that
attempt (`w.putObject n` for the `n`-th attempt); `GenerateImages` calls touch
no object.  There is no event that removes an object: nothing is rolled back. -/
def storeAfter (w : World) : List Event → Nat → List (String × List Nat)
  | [], _ => []
  | Event.genCall _ _ _ :: rest, n => storeAfter w rest n
  | Event.putObject _ key body _ :: rest, n =>
    match w.putObject n with
    | .ok _ => (key, body) :: storeAfter w rest (n + 1)
    | .error _ => storeAfter w rest (n + 1)

theorem okUrls_length (cfg : Config) (w : World) (imgs : List GeneratedImage) (idx : Nat) :
    (okUrls cfg w imgs idx).length = imgs.length := by
  induction imgs generalizing idx with
  | nil => rfl
  | cons img rest ih => simp [okUrls, ih]

theorem okUrls_eq_range (cfg : Config) (w : World) (imgs : List GeneratedImage) (idx : Nat) :
    okUrls cfg w imgs idx = (List.range imgs.length).map (fun j => urlFor cfg w (idx + j)) := by
  induction imgs generalizing idx with
  | nil => rfl
  | cons img rest ih =>
    have hf : (fun j => urlFor cfg w (idx + Nat.succ j)) =
        (fun j => urlFor cfg w (idx + 1 + j)) := by
      funext j
      have : idx + Nat.succ j = idx + 1 + j := by omega
      rw [this]
    simp only [okUrls, ih, List.length_cons, List.range_succ_eq_map, List.map_cons,
      List.map_map, Nat.add_zero, Function.comp_def, hf]

theorem uploadLoop_all_ok (cfg : Config) (w : World) (imgs : List GeneratedImage) (idx : Nat)
    (hok : ∀ j, w.putObject j = Except.ok ()) :
    uploadLoop cfg w imgs idx =
      LoopOut.ok (okUrls cfg w imgs idx) (putEvents cfg w imgs idx) := by
  induction imgs generalizing idx with
  | nil => rfl
  | cons img rest ih =>
    simp [uploadLoop, hok idx, ih, okUrls, putEvents]

theorem uploadLoop_fail (cfg : Config) (w : World) (imgs : List GeneratedImage) (idx i : Nat)
    (e : String) (hi : i < imgs.length)
    (hok : ∀ j, j < i → w.putObject (idx + j) = Except.ok ())
    (hfail : w.putObject (idx + i) = Except.error e) :
    uploadLoop cfg w imgs idx =
      LoopOut.fail ("failed to upload image: " ++ e)
        (putEvents cfg w (imgs.take (i + 1)) idx) := by
  induction imgs generalizing idx i with
  | nil => exact absurd hi (by simp)
  | cons img rest ih =>
    match i with
    | 0 =>
      have h0 : w.putObject idx = Except.error e := by simpa using hfail
      simp [uploadLoop, h0, putEvents]
    | Nat.succ j =>
      have h0 : w.putObject idx = Except.ok () := by
        have := hok 0 (Nat.succ_pos j)
        simpa using this
      have hok' : ∀ j', j' < j → w.putObject (idx + 1 + j') = Except.ok () := by
        intro j' hj'
        have := hok (j' + 1) (by omega)
        have harith : idx + (j' + 1) = idx + 1 + j' := by omega
        rwa [harith] at this
      have hfail' : w.putObject (idx + 1 + j) = Except.error e := by
        have harith : idx + Nat.succ j = idx + 1 + j := by omega
        rwa [harith] at hfail
      have hj : j < rest.length := by simpa using hi
      simp [uploadLoop, h0, ih (idx + 1) j hj hok' hfail', putEvents]

theorem storeAfter_putEvents_all_ok (cfg : Config) (w : World) (imgs : List GeneratedImage)
    (idx : Nat) (hok : ∀ j, w.putObject j = Except.ok ()) :
    storeAfter w (putEvents cfg w imgs idx) idx = putPairs cfg w imgs idx := by
  induction imgs generalizing idx with
  | nil => rfl
  | cons img rest ih => simp [putEvents, storeAfter, hok idx, ih, putPairs]

theorem storeAfter_putEvents_fail (cfg : Config) (w : World) (imgs : List GeneratedImage)
    (idx i : Nat) (e : String) (hi : i < imgs.length)
    (hok : ∀ j, j < i → w.putObject (idx + j) = Except.ok ())
    (hfail : w.putObject (idx + i) = Except.error e) :
    storeAfter w (putEvents cfg w (imgs.take (i + 1)) idx) idx =
      putPairs cfg w (imgs.take i) idx := by
  induction imgs generalizing idx i with
  | nil => exact absurd hi (by simp)
  | cons img rest ih =>
    match i with
    | 0 =>
      have h0 : w.putObject idx = Except.error e := by simpa using hfail
      simp [putEvents, storeAfter, h0, putPairs]
    | Nat.succ j =>
      have h0 : w.putObject idx = Except.ok () := by
        have := hok 0 (Nat.succ_pos j)
        simpa using this
      have hok' : ∀ j', j' < j → w.putObject (idx + 1 + j') = Except.ok () := by
        intro j' hj'
        have := hok (j' + 1) (by omega)
        have harith : idx + (j' + 1) = idx + 1 + j' := by omega
        rwa [harith] at this
      have hfail' : w.putObject (idx + 1 + j) = Except.error e := by
        have harith : idx + Nat.succ j = idx + 1 + j := by omega
        rwa [harith] at hfail
      have hj : j < rest.length := by simpa using hi
      simp [putEvents, storeAfter, h0, ih (idx + 1) j hj hok' hfail', putPairs]

theorem handler_success (cfg : Config) (w : World) (inp : requestPayload)
    (imgs : List GeneratedImage) (hp : inp.prompt ≠ "")
    (hg : w.generateImages inp.prompt (genConfigOf inp) = Except.ok imgs)
    (hok : ∀ j, w.putObject j = Except.ok ()) :
    handler cfg w (Except.ok inp) =
      { resp := { statusCode := 200
                  headers := [("Content-Type", "application/json")]
                  body := marshalResponse (okUrls cfg w imgs 0) }
        goError := none
        imageUrls := some (okUrls cfg w imgs 0)
        events := Event.genCall "imagen-4.0-generate-preview-06-06" inp.prompt (genConfigOf inp)
          :: putEvents cfg w imgs 0 } := by
  simp [handler, hp, hg, uploadLoop_all_ok cfg w imgs 0 hok]

theorem handler_gen_fail (cfg : Config) (w : World) (inp : requestPayload) (e : String)
    (hp : inp.prompt ≠ "")
    (hg : w.generateImages inp.prompt (genConfigOf inp) = Except.error e) :
    handler cfg w (Except.ok inp) =
      { resp := { statusCode := 500
                  headers := [("Content-Type", "text/plain")]
                  body := "image generation failed: " ++ e }
        goError := none
        imageUrls := none
        events := [Event.genCall "imagen-4.0-generate-preview-06-06" inp.prompt
          (genConfigOf inp)] } := by
  simp [handler, hp, hg, serverError]

theorem handler_upload_fail (cfg : Config) (w : World) (inp : requestPayload)
    (imgs : List GeneratedImage) (i : Nat) (e : String) (hp : inp.prompt ≠ "")
    (hg : w.generateImages inp.prompt (genConfigOf inp) = Except.ok imgs)
    (hi : i < imgs.length)
    (hok : ∀ j, j < i → w.putObject j = Except.ok ())
    (hfail : w.putObject i = Except.error e) :
    handler cfg w (Except.ok inp) =
      { resp := { statusCode := 500
                  headers := [("Content-Type", "text/plain")]
                  body := "failed to upload image: " ++ e }
        goError := none
        imageUrls := none
        events := Event.genCall "imagen-4.0-generate-preview-06-06" inp.prompt (genConfigOf inp)
          :: putEvents cfg w (imgs.take (i + 1)) 0 } := by
  have hok0 : ∀ j, j < i → w.putObject (0 + j) = Except.ok () := by
    intro j hj
    simpa using hok j hj
  have hfail0 : w.putObject (0 + i) = Except.error e := by simpa using hfail
  simp [handler, hp, hg, uploadLoop_fail cfg w imgs 0 i e hi hok0 hfail0, serverError]

theorem string_append_ne_empty (s t : String) (h : t.length ≠ 0) : s ++ t ≠ "" := by
  intro hc
  have h2 := congrArg String.length hc
  rw [String.length_append] at h2
  simp at h2
  omega

theorem keyFor_eq (cfg : Config) (w : World) (idx : Nat) :
    keyFor cfg w idx =
      (if cfg.folderPrefix = "" then "" else cfg.folderPrefix ++ "/") ++
        ("imagen_" ++ toString idx ++ "_" ++ formatTimestamp (w.now idx) ++ ".png") := by
  have hb : ("imagen_" ++ toString idx ++ "_" ++ formatTimestamp (w.now idx) ++ ".png") ≠ "" := by
    apply string_append_ne_empty
    decide
  by_cases h : cfg.folderPrefix = ""
  · simp only [keyFor, pathJoin, h, if_pos rfl, if_true]
    rfl
  · simp [keyFor, pathJoin, h, hb]

theorem putEvents_mem (cfg : Config) (w : World) (imgs : List GeneratedImage) (idx : Nat)
    (ev : Event) (hm : ev ∈ putEvents cfg w imgs idx) :
    ∃ j img, imgs[j]? = some img ∧
      ev = Event.putObject cfg.bucketName (keyFor cfg w (idx + j)) img.imageBytes "image/png" := by
  induction imgs generalizing idx with
  | nil => simp [putEvents] at hm
  | cons img rest ih =>
    rw [putEvents, List.mem_cons] at hm
    rcases hm with h0 | hrest
    · exact ⟨0, img, by simp, by simpa using h0⟩
    · obtain ⟨j, img', hj, hev⟩ := ih (idx + 1) hrest
      refine ⟨j + 1, img', by simpa using hj, ?_⟩
      have harith : idx + 1 + j = idx + (j + 1) := by omega
      rwa [harith] at hev

/-- A string has the `YYYYMMDDThhmmss` shape: 15 characters, a literal `T` at
position 8, decimal digits everywhere else. -/
def tsShape (s : String) : Bool :=
  (s.length == 15) &&
    s.toList.enum.all (fun p => if p.1 == 8 then p.2 == 'T' else p.2.isDigit)

/-- Field bounds under which the Go layout prints each component at its full
width (the wall clock always satisfies them). -/
def dtBounded (t : DateTime) : Prop :=
  t.year < 10000 ∧ t.month < 100 ∧ t.day < 100 ∧
    t.hour < 100 ∧ t.minute < 100 ∧ t.second < 100

theorem digitChar_isDigit : ∀ m, m < 10 → (Nat.digitChar m).isDigit = true := by decide

theorem formatTimestamp_data (t : DateTime) (h : dtBounded t) :
    (formatTimestamp t).data =
      [Nat.digitChar (t.year / 1000), Nat.digitChar (t.year / 100 % 10),
       Nat.digitChar (t.year / 10 % 10), Nat.digitChar (t.year % 10),
       Nat.digitChar (t.month / 10), Nat.digitChar (t.month % 10),
       Nat.digitChar (t.day / 10), Nat.digitChar (t.day % 10), 'T',
       Nat.digitChar (t.hour / 10), Nat.digitChar (t.hour % 10),
       Nat.digitChar (t.minute / 10), Nat.digitChar (t.minute % 10),
       Nat.digitChar (t.second / 10), Nat.digitChar (t.second % 10)] := by
  obtain ⟨hy, hmo, hd, hh, hmi, hs⟩ := h
  simp [formatTimestamp, pad4, pad2, hy, hmo, hd, hh, hmi, hs, String.data_append]

theorem formatTimestamp_shape (t : DateTime) (h : dtBounded t) :
    tsShape (formatTimestamp t) = true := by
  obtain ⟨hy, hmo, hd, hh, hmi, hs⟩ := h
  have hdata := formatTimestamp_data t ⟨hy, hmo, hd, hh, hmi, hs⟩
  have hlist : (formatTimestamp t).toList = (formatTimestamp t).data := rfl
  have hlen : (formatTimestamp t).length = (formatTimestamp t).data.length := rfl
  rw [tsShape, hlist, hlen, hdata]
  simp only [List.length_cons, List.length_nil, List.enum, List.enumFrom, List.all]
  simp only [Bool.and_eq_true, beq_iff_eq, List.all_cons, List.all_nil, Bool.and_true]
  constructor
  · trivial
  · norm_num
    and_intros <;> exact digitChar_isDigit _ (by omega)

/-- Sample configuration used to instantiate the theorems: the bucket `bucket`
in `us-east-1` with no folder prefix, as in the spec's concrete scenario. -/
def sampleCfg : Config :=
  { bucketName := "bucket", folderPrefix := "", region := "us-east-1" }

/-- A fixed wall-clock reading, 2025-08-05 12:34:56. -/
def sampleTime : DateTime :=
  { year := 2025, month := 8, day := 5, hour := 12, minute := 34, second := 56 }

/-- Two sample generated images. -/
def sampleImages : List GeneratedImage :=
  [{ imageBytes := [137, 80, 78, 71] }, { imageBytes := [1, 2, 3] }]

/-- A single sample generated image. -/
def oneImage : List GeneratedImage := [{ imageBytes := [137, 80] }]

/-- A world where generation returns `imgs` and every upload succeeds. -/
def okWorld (imgs : List GeneratedImage) : World :=
  { generateImages := fun _ _ => Except.ok imgs
    putObject := fun _ => Except.ok ()
    now := fun _ => sampleTime }

/-- A world where the generation call itself fails with `e`. -/
def failGenWorld (e : String) : World :=
  { generateImages := fun _ _ => Except.error e
    putObject := fun _ => Except.ok ()
    now := fun _ => sampleTime }

/-- A world where generation returns `imgs`, uploads before attempt `i` succeed
and attempt `i` (and any later one) fails with `e`. -/
def failPutWorld (imgs : List GeneratedImage) (i : Nat) (e : String) : World :=
  { generateImages := fun _ _ => Except.ok imgs
    putObject := fun j => if j < i then Except.ok () else Except.error e
    now := fun _ => sampleTime }

/-- The spec's concrete request: prompt `A cat`, two images, square. -/
def catRequest : requestPayload :=
  { numberOfImages := 2, aspectRatio := "SQUARE", personGeneration := "", prompt := "A cat" }

/-- C2: a request whose body parses but whose prompt field is empty or absent
(Go decodes an absent string field to `""`) yields a 400 response with body
`prompt is required`, and no external call happens: the generation client is
never invoked and no upload occurs (empty trace). -/
theorem C2_empty_prompt_rejected (cfg : Config) (w : World) (inp : requestPayload)
    (h : inp.prompt = "") :
    (handler cfg w (Except.ok inp)).resp.statusCode = 400 ∧
    (handler cfg w (Except.ok inp)).resp.body = "prompt is required" ∧
    (handler cfg w (Except.ok inp)).events = [] := by
  simp [handler, h, clientError]

/-- Witness for C2 at a concrete all-defaults payload with empty prompt. -/
theorem C2_empty_prompt_rejected_witness :
    (handler sampleCfg (okWorld sampleImages)
        (Except.ok { numberOfImages := 0, aspectRatio := "", personGeneration := "",
                     prompt := "" })).resp.statusCode = 400 ∧
    (handler sampleCfg (okWorld sampleImages)
        (Except.ok { numberOfImages := 0, aspectRatio := "", personGeneration := "",
                     prompt := "" })).resp.body = "prompt is required" ∧
    (handler sampleCfg (okWorld sampleImages)
        (Except.ok { numberOfImages := 0, aspectRatio := "", personGeneration := "",
                     prompt := "" })).events = [] :=
  C2_empty_prompt_rejected sampleCfg (okWorld sampleImages) _ rfl

/-- C3: when the generation call fails, the response is a 500 carrying the
upstream error text, the trace holds exactly the one generation call (no retry)
and no upload attempt, and nothing is written to the store. -/
theorem C3_generation_failure (cfg : Config) (w : World) (inp : requestPayload) (e : String)
    (hp : inp.prompt ≠ "")
    (hg : w.generateImages inp.prompt (genConfigOf inp) = Except.error e) :
    (handler cfg w (Except.ok inp)).resp.statusCode = 500 ∧
    (handler cfg w (Except.ok inp)).resp.body = "image generation failed: " ++ e ∧
    (handler cfg w (Except.ok inp)).events =
      [Event.genCall "imagen-4.0-generate-preview-06-06" inp.prompt (genConfigOf inp)] ∧
    storeAfter w (handler cfg w (Except.ok inp)).events 0 = [] := by
  rw [handler_gen_fail cfg w inp e hp hg]
  exact ⟨rfl, rfl, rfl, rfl⟩

/-- Witness for C3: the cat request against a world whose generation call
fails with `quota exceeded`. -/
theorem C3_generation_failure_witness :
    (handler sampleCfg (failGenWorld "quota exceeded") (Except.ok catRequest)).resp.statusCode
        = 500 ∧
    (handler sampleCfg (failGenWorld "quota exceeded")
        (Except.ok catRequest)).resp.body = "image generation failed: " ++ "quota exceeded" ∧
    (handler sampleCfg (failGenWorld "quota exceeded") (Except.ok catRequest)).events =
      [Event.genCall "imagen-4.0-generate-preview-06-06" catRequest.prompt
        (genConfigOf catRequest)] ∧
    storeAfter (failGenWorld "quota exceeded")
      (handler sampleCfg (failGenWorld "quota exceeded") (Except.ok catRequest)).events 0 = [] :=
  C3_generation_failure sampleCfg (failGenWorld "quota exceeded") catRequest
    "quota exceeded" (by decide) rfl

/-- C5: a payload with `numberOfImages` zero or negative makes the handler
behave identically - same response, same Go error, same URL list, same trace of
generation and upload calls - to the same payload with `numberOfImages = 1`. -/
theorem C5_nonpositive_count_coerced (cfg : Config) (w : World) (inp : requestPayload)
    (h : inp.numberOfImages ≤ 0) :
    handler cfg w (Except.ok inp) =
      handler cfg w (Except.ok { inp with numberOfImages := 1 }) := by
  have hcfg : genConfigOf inp = genConfigOf { inp with numberOfImages := 1 } := by
    simp [genConfigOf, h]
  simp only [handler, hcfg]

/-- Witness for C5 at `numberOfImages = -3`. -/
theorem C5_nonpositive_count_coerced_witness :
    handler sampleCfg (okWorld sampleImages)
        (Except.ok { catRequest with numberOfImages := -3 }) =
      handler sampleCfg (okWorld sampleImages)
        (Except.ok { { catRequest with numberOfImages := -3 } with numberOfImages := 1 }) :=
  C5_nonpositive_count_coerced sampleCfg (okWorld sampleImages)
    { catRequest with numberOfImages := -3 } (by decide)

/-- C8: a body that does not parse as the expected JSON shape yields a 400
response with a plain-text error body, and no generation or upload call is
made (empty trace). -/
theorem C8_malformed_body (cfg : Config) (w : World) (e : String) :
    (handler cfg w (Except.error e)).resp.statusCode = 400 ∧
    (handler cfg w (Except.error e)).resp.headers = [("Content-Type", "text/plain")] ∧
    (handler cfg w (Except.error e)).resp.body = "invalid JSON: " ++ e ∧
    (handler cfg w (Except.error e)).events = [] := by
  exact ⟨rfl, rfl, rfl, rfl⟩

/-- C9: on every input and outcome the handler returns a `nil` Go error; the
outcome is carried solely by the response, whose status is always 200, 400 or
500. -/
theorem C9_nil_go_error (cfg : Config) (w : World) (body : Except String requestPayload) :
    (handler cfg w body).goError = none ∧
    ((handler cfg w body).resp.statusCode = 200 ∨ (handler cfg w body).resp.statusCode = 400 ∨
      (handler cfg w body).resp.statusCode = 500) := by
  cases body with
  | error e => exact ⟨rfl, Or.inr (Or.inl rfl)⟩
  | ok inp =>
    by_cases hp : inp.prompt = ""
    · simp [handler, hp, clientError]
    · cases hg : w.generateImages inp.prompt (genConfigOf inp) with
      | error e => simp [handler, hp, hg, serverError]
      | ok imgs =>
        cases hu : uploadLoop cfg w imgs 0 with
        | ok urls evs => simp [handler, hp, hg, hu]
        | fail msg evs => simp [handler, hp, hg, hu, serverError]

/-- C10: when generation succeeds with zero images, no upload happens and the
200 response body serializes the nil Go slice as `imageUrls: null` (JSON null,
not an empty array). -/
theorem C10_zero_images_null (cfg : Config) (w : World) (inp : requestPayload)
    (hp : inp.prompt ≠ "")
    (hg : w.generateImages inp.prompt (genConfigOf inp) = Except.ok []) :
    (handler cfg w (Except.ok inp)).resp.statusCode = 200 ∧
    (handler cfg w (Except.ok inp)).resp.body = "\x7b\"imageUrls\":null\x7d" ∧
    (handler cfg w (Except.ok inp)).imageUrls = some [] ∧
    (handler cfg w (Except.ok inp)).events =
      [Event.genCall "imagen-4.0-generate-preview-06-06" inp.prompt (genConfigOf inp)] := by
  simp [handler, hp, hg, uploadLoop, marshalResponse]

/-- Witness for C10: the cat request against a world that returns no images. -/
theorem C10_zero_images_null_witness :
    (handler sampleCfg (okWorld []) (Except.ok catRequest)).resp.statusCode = 200 ∧
    (handler sampleCfg (okWorld []) (Except.ok catRequest)).resp.body =
      "\x7b\"imageUrls\":null\x7d" ∧
    (handler sampleCfg (okWorld []) (Except.ok catRequest)).imageUrls = some [] ∧
    (handler sampleCfg (okWorld []) (Except.ok catRequest)).events =
      [Event.genCall "imagen-4.0-generate-preview-06-06" catRequest.prompt
        (genConfigOf catRequest)] :=
  C10_zero_images_null sampleCfg (okWorld []) catRequest (by decide) rfl

/-- C4: when the `i`-th upload attempt fails (all earlier ones having
succeeded), the handler aborts at once with a 500 carrying the storage error:
the trace shows the generation call and upload attempts for indices `0..i` only
(nothing after `i`), the store holds exactly the objects of indices `0..i-1`
(committed, nothing rolled back - no event removes an object), and the
response carries no URL list at all. -/
theorem C4_upload_failure_aborts (cfg : Config) (w : World) (inp : requestPayload)
    (imgs : List GeneratedImage) (i : Nat) (e : String) (hp : inp.prompt ≠ "")
    (hg : w.generateImages inp.prompt (genConfigOf inp) = Except.ok imgs)
    (hi : i < imgs.length)
    (hok : ∀ j, j < i → w.putObject j = Except.ok ())
    (hfail : w.putObject i = Except.error e) :
    (handler cfg w (Except.ok inp)).resp.statusCode = 500 ∧
    (handler cfg w (Except.ok inp)).resp.body = "failed to upload image: " ++ e ∧
    (handler cfg w (Except.ok inp)).imageUrls = none ∧
    (handler cfg w (Except.ok inp)).events =
      Event.genCall "imagen-4.0-generate-preview-06-06" inp.prompt (genConfigOf inp)
        :: putEvents cfg w (imgs.take (i + 1)) 0 ∧
    storeAfter w (handler cfg w (Except.ok inp)).events 0 =
      putPairs cfg w (imgs.take i) 0 := by
  have hok0 : ∀ j, j < i → w.putObject (0 + j) = Except.ok () := by
    intro j hj
    simpa using hok j hj
  have hfail0 : w.putObject (0 + i) = Except.error e := by simpa using hfail
  rw [handler_upload_fail cfg w inp imgs i e hp hg hi hok hfail]
  refine ⟨rfl, rfl, rfl, rfl, ?_⟩
  show storeAfter w (putEvents cfg w (imgs.take (i + 1)) 0) 0 = putPairs cfg w (imgs.take i) 0
  exact storeAfter_putEvents_fail cfg w imgs 0 i e hi hok0 hfail0

/-- Witness for C4: two generated images, the upload of index 1 fails. -/
theorem C4_upload_failure_aborts_witness :
    (handler sampleCfg (failPutWorld sampleImages 1 "boom")
        (Except.ok catRequest)).resp.statusCode = 500 ∧
    (handler sampleCfg (failPutWorld sampleImages 1 "boom")
        (Except.ok catRequest)).resp.body = "failed to upload image: " ++ "boom" ∧
    (handler sampleCfg (failPutWorld sampleImages 1 "boom")
        (Except.ok catRequest)).imageUrls = none ∧
    (handler sampleCfg (failPutWorld sampleImages 1 "boom")
        (Except.ok catRequest)).events =
      Event.genCall "imagen-4.0-generate-preview-06-06" catRequest.prompt
          (genConfigOf catRequest)
        :: putEvents sampleCfg (failPutWorld sampleImages 1 "boom") (sampleImages.take 2) 0 ∧
    storeAfter (failPutWorld sampleImages 1 "boom")
        (handler sampleCfg (failPutWorld sampleImages 1 "boom")
          (Except.ok catRequest)).events 0 =
      putPairs sampleCfg (failPutWorld sampleImages 1 "boom") (sampleImages.take 1) 0 :=
  C4_upload_failure_aborts sampleCfg (failPutWorld sampleImages 1 "boom") catRequest
    sampleImages 1 "boom" (by decide) rfl (by decide)
    (fun j hj => by
      have hj0 : j = 0 := by omega
      subst hj0
      rfl) rfl

/-- Every `PutObject` event the upload loop emits - whether the loop ends in
success or aborts on a failure - targets the bucket with the key and bytes of
some generated image at its zero-based index. -/
theorem uploadLoop_events_shape (cfg : Config) (w : World) (imgs : List GeneratedImage)
    (idx : Nat) :
    ∀ ev ∈ (uploadLoop cfg w imgs idx).events,
      ∃ j img, imgs[j]? = some img ∧
        ev = Event.putObject cfg.bucketName (keyFor cfg w (idx + j)) img.imageBytes
          "image/png" := by
  induction imgs generalizing idx with
  | nil => intro ev h; simp [uploadLoop, LoopOut.events] at h
  | cons img rest ih =>
    intro ev h
    rw [uploadLoop] at h
    cases hp : w.putObject idx with
    | error e =>
      rw [hp] at h
      simp only [LoopOut.events, List.mem_singleton] at h
      exact ⟨0, img, by simp, by simpa using h⟩
    | ok u =>
      rw [hp] at h
      cases hu : uploadLoop cfg w rest (idx + 1) with
      | ok urls evs =>
        rw [hu] at h
        simp only [LoopOut.events, List.mem_cons] at h
        rcases h with h0 | hrest
        · exact ⟨0, img, by simp, by simpa using h0⟩
        · have hrest' : ev ∈ (uploadLoop cfg w rest (idx + 1)).events := by
            rw [hu]; exact hrest
          obtain ⟨j, img', hj, hev⟩ := ih (idx + 1) ev hrest'
          refine ⟨j + 1, img', by simpa using hj, ?_⟩
          have harith : idx + 1 + j = idx + (j + 1) := by omega
          rwa [harith] at hev
      | fail msg evs =>
        rw [hu] at h
        simp only [LoopOut.events, List.mem_cons] at h
        rcases h with h0 | hrest
        · exact ⟨0, img, by simp, by simpa using h0⟩
        · have hrest' : ev ∈ (uploadLoop cfg w rest (idx + 1)).events := by
            rw [hu]; exact hrest
          obtain ⟨j, img', hj, hev⟩ := ih (idx + 1) ev hrest'
          refine ⟨j + 1, img', by simpa using hj, ?_⟩
          have harith : idx + 1 + j = idx + (j + 1) := by omega
          rwa [harith] at hev

/-- On a valid request whose generation call returned `imgs`, the trace is the
generation call followed by the upload loop's events, for either loop
outcome. -/
theorem handler_events_ok (cfg : Config) (w : World) (inp : requestPayload)
    (imgs : List GeneratedImage) (hp : inp.prompt ≠ "")
    (hg : w.generateImages inp.prompt (genConfigOf inp) = Except.ok imgs) :
    (handler cfg w (Except.ok inp)).events =
      Event.genCall "imagen-4.0-generate-preview-06-06" inp.prompt (genConfigOf inp)
        :: (uploadLoop cfg w imgs 0).events := by
  cases hu : uploadLoop cfg w imgs 0 with
  | ok urls evs => simp [handler, hp, hg, hu, LoopOut.events]
  | fail msg evs => simp [handler, hp, hg, hu, LoopOut.events]

/-- C6: every object the handler uploads for a valid request is stored under
the key `{folderPrefix}/imagen_{idx}_{timestamp}.png` - with no leading
separator when the prefix is empty - where `idx` is the image's zero-based
position in the generation result and the timestamp is the wall clock of that
iteration formatted `YYYYMMDDThhmmss` (15 characters: digits with a literal
`T` at position 8, for in-range clock fields). -/
theorem C6_storage_key_format (cfg : Config) (w : World) (inp : requestPayload)
    (imgs : List GeneratedImage) (hp : inp.prompt ≠ "")
    (hg : w.generateImages inp.prompt (genConfigOf inp) = Except.ok imgs) :
    (∀ b k bytes ct, Event.putObject b k bytes ct ∈ (handler cfg w (Except.ok inp)).events →
      b = cfg.bucketName ∧
      ∃ idx img, imgs[idx]? = some img ∧ bytes = img.imageBytes ∧
        k = (if cfg.folderPrefix = "" then "" else cfg.folderPrefix ++ "/") ++
          ("imagen_" ++ toString idx ++ "_" ++ formatTimestamp (w.now idx) ++ ".png")) ∧
    (∀ idx, dtBounded (w.now idx) → tsShape (formatTimestamp (w.now idx)) = true) := by
  constructor
  · intro b k bytes ct hmem
    rw [handler_events_ok cfg w inp imgs hp hg, List.mem_cons] at hmem
    rcases hmem with h0 | hrest
    · exact absurd h0 (by simp)
    · obtain ⟨j, img, hj, hev⟩ := uploadLoop_events_shape cfg w imgs 0 _ hrest
      rw [Event.putObject.injEq] at hev
      obtain ⟨hb, hk, hbytes, _⟩ := hev
      refine ⟨hb, j, img, hj, hbytes, ?_⟩
      rw [hk]
      have h0j : (0 : Nat) + j = j := by omega
      rw [h0j, keyFor_eq]
  · intro idx hb
    exact formatTimestamp_shape (w.now idx) hb

/-- Witness for C6: the cat request, two images, empty prefix, fixed clock. -/
theorem C6_storage_key_format_witness :
    (∀ b k bytes ct,
      Event.putObject b k bytes ct ∈
          (handler sampleCfg (okWorld sampleImages) (Except.ok catRequest)).events →
      b = sampleCfg.bucketName ∧
      ∃ idx img, sampleImages[idx]? = some img ∧ bytes = img.imageBytes ∧
        k = (if sampleCfg.folderPrefix = "" then "" else sampleCfg.folderPrefix ++ "/") ++
          ("imagen_" ++ toString idx ++ "_" ++
            formatTimestamp ((okWorld sampleImages).now idx) ++ ".png")) ∧
    (∀ idx, dtBounded ((okWorld sampleImages).now idx) →
      tsShape (formatTimestamp ((okWorld sampleImages).now idx)) = true) :=
  C6_storage_key_format sampleCfg (okWorld sampleImages) catRequest sampleImages
    (by decide) rfl

/-- C7: on full success the 200 response's URL list is, in generation order,
`https://{bucket}.s3.{region}.amazonaws.com/{key}` for the key of each image
index. -/
theorem C7_public_url_format (cfg : Config) (w : World) (inp : requestPayload)
    (imgs : List GeneratedImage) (hp : inp.prompt ≠ "")
    (hg : w.generateImages inp.prompt (genConfigOf inp) = Except.ok imgs)
    (hok : ∀ j, w.putObject j = Except.ok ()) :
    (handler cfg w (Except.ok inp)).resp.statusCode = 200 ∧
    (handler cfg w (Except.ok inp)).imageUrls =
      some ((List.range imgs.length).map (fun idx =>
        "https://" ++ cfg.bucketName ++ ".s3." ++ cfg.region ++ ".amazonaws.com/" ++
          keyFor cfg w idx)) := by
  rw [handler_success cfg w inp imgs hp hg hok]
  refine ⟨rfl, ?_⟩
  show some (okUrls cfg w imgs 0) = _
  rw [okUrls_eq_range]
  simp [urlFor]

/-- Witness for C7, matching the spec's concrete scenario shape: bucket
`bucket`, region `us-east-1`, empty prefix, one image at the fixed clock; the
resulting URL is the literal
`https://bucket.s3.us-east-1.amazonaws.com/imagen_0_20250805T123456.png`. -/
theorem C7_public_url_format_witness :
    (handler sampleCfg (okWorld oneImage) (Except.ok catRequest)).resp.statusCode = 200 ∧
    (handler sampleCfg (okWorld oneImage) (Except.ok catRequest)).imageUrls =
      some ["https://bucket.s3.us-east-1.amazonaws.com/imagen_0_20250805T123456.png"] := by
  have h := C7_public_url_format sampleCfg (okWorld oneImage) catRequest oneImage
    (by decide) rfl (fun j => rfl)
  refine ⟨h.1, ?_⟩
  rw [h.2]
  rfl

/-- C1 as frozen is false on the code: with `numberOfImages = 2`, a generation
client that succeeds but returns a single image, and a store that accepts every
upload, the 200 response carries one URL, not two - the handler returns one URL
per *returned* image, never consulting the requested count. -/
theorem C1_counterexample :
    catRequest.numberOfImages = 2 ∧
    (okWorld oneImage).generateImages catRequest.prompt (genConfigOf catRequest) =
      Except.ok oneImage ∧
    (okWorld oneImage).putObject 0 = Except.ok () ∧
    (handler sampleCfg (okWorld oneImage) (Except.ok catRequest)).resp.statusCode = 200 ∧
    ((handler sampleCfg (okWorld oneImage) (Except.ok catRequest)).imageUrls.getD []).length
        = 1 ∧
    ¬ ((handler sampleCfg (okWorld oneImage) (Except.ok catRequest)).imageUrls.getD []).length
        = 2 := by
  refine ⟨rfl, rfl, rfl, rfl, rfl, by decide⟩

/-- C1 (amended): for a valid request with `imageCount = k`, when the
generation client succeeds returning exactly `k` images and every upload
succeeds, the handler returns a 200 response whose URL list has exactly `k`
URLs, in generation order (the URL at position `idx` is built from the key of
image `idx`). -/
theorem C1_k_urls_in_order (cfg : Config) (w : World) (inp : requestPayload)
    (imgs : List GeneratedImage) (k : Nat) (hp : inp.prompt ≠ "")
    (hg : w.generateImages inp.prompt (genConfigOf inp) = Except.ok imgs)
    (hk : imgs.length = k)
    (hok : ∀ j, w.putObject j = Except.ok ()) :
    (handler cfg w (Except.ok inp)).resp.statusCode = 200 ∧
    ∃ us, (handler cfg w (Except.ok inp)).imageUrls = some us ∧ us.length = k ∧
      us = (List.range k).map (fun idx => urlFor cfg w idx) := by
  rw [handler_success cfg w inp imgs hp hg hok]
  refine ⟨rfl, okUrls cfg w imgs 0, rfl, ?_, ?_⟩
  · rw [okUrls_length, hk]
  · rw [okUrls_eq_range, hk]
    simp

/-- Witness for the amended C1: two images requested, two returned, both
uploads succeed, two URLs in order. -/
theorem C1_k_urls_in_order_witness :
    (handler sampleCfg (okWorld sampleImages) (Except.ok catRequest)).resp.statusCode = 200 ∧
    ∃ us, (handler sampleCfg (okWorld sampleImages) (Except.ok catRequest)).imageUrls =
        some us ∧ us.length = 2 ∧
      us = (List.range 2).map (fun idx => urlFor sampleCfg (okWorld sampleImages) idx) :=
  C1_k_urls_in_order sampleCfg (okWorld sampleImages) catRequest sampleImages 2
    (by decide) rfl rfl (fun j => rfl)

end Imagen
